import Mathlib

/-!
Shallow embedding of the analytical engine of `analisis_de_compra`
(`analisis_core.py`, `analisis_compras.py`, `analisis_cliente.py`).

Modelling conventions:
* numeric cells are exact rationals (`ℚ`); pandas float64 arithmetic is
  idealised as exact rational arithmetic;
* a raw cell that may fail numeric coercion is `Option ℚ`
  (`pd.to_numeric(..., errors="coerce")` gives `none` on failure, and the
  subsequent `.fillna(0)` is `Option.getD 0`);
* a transaction date that may fail to parse is `Option Fecha`
  (`pd.to_datetime(..., dayfirst=True, errors="coerce")`);
* calendar months are linearised as integers (`year * 12 + month`), so the
  month-start timestamps ordered by pandas become the usual order on `ℤ`;
* `pandas.Series.round(2)` is round-half-even at two decimals (`round2`);
* the anchor month `pd.Timestamp.today().to_period("M").to_timestamp()` is an
  explicit parameter `ref : ℤ` of every windowed definition.
-/

/-- Round-half-even of a rational to an integer, i.e. the tie-breaking rule
numpy uses for `.round`. -/
def rhe (x : ℚ) : ℤ :=
  if x - ⌊x⌋ < 1/2 then ⌊x⌋
  else if 1/2 < x - ⌊x⌋ then ⌊x⌋ + 1
  else if ⌊x⌋ % 2 = 0 then ⌊x⌋ else ⌊x⌋ + 1

/-- The `.round(2)` applied to every quantity column before output. -/
def round2 (x : ℚ) : ℚ := (rhe (100 * x) : ℚ) / 100

/-- Python `int()` conversion: truncation toward zero. -/
def intPy (q : ℚ) : ℤ := if 0 ≤ q then ⌊q⌋ else ⌈q⌉

/-- Source: `DIAS_VENTA_X_MES = int(VENTA_DIAS_SEMANA * 4.33)`
(`analisis_core.py` line 121, `analisis_compras.py` line 12). -/
def diasVentaXMes (vds : ℚ) : ℤ := intPy (vds * (433/100))

/-- A parsed transaction date: linearised calendar month and day of month. -/
structure Fecha where
  mes : ℤ
  dia : ℤ
  deriving DecidableEq, Repr

/-- One raw sales row after column validation: the four required columns
`COD_PROD`, `Fecha`, `Cantidad`, `PRECIO_DESCUENTO` plus the optional
customer/supplier columns used by the customer analysis. -/
structure VentaRow where
  codProd : String
  nomCliente : String
  desProveedor : String
  fecha : Option Fecha
  cantidad : Option ℚ
  precio : Option ℚ
  deriving DecidableEq, Repr

/-- One raw inventory row after renaming: `COD_PROD`, `DESCRIPCION`,
`SALDO ACTUAL` (the balance may fail numeric coercion). -/
structure InvRow where
  codProd : String
  descripcion : String
  saldo : Option ℚ
  deriving DecidableEq, Repr

/-- Coerced quantity: `pd.to_numeric(out["Cantidad"], errors="coerce").fillna(0)`. -/
def cantC (r : VentaRow) : ℚ := r.cantidad.getD 0

/-- Coerced unit price: same coercion applied to `PRECIO_DESCUENTO`. -/
def precioC (r : VentaRow) : ℚ := r.precio.getD 0

/-- Row revenue: `out["Ingreso"] = out["Cantidad"] * out["PRECIO_DESCUENTO"]`. -/
def ingresoC (r : VentaRow) : ℚ := cantC r * precioC r

/-- Rows whose date parsed; rows with an unparseable date have `Mes = NaT` and
are dropped by the `groupby` on `["COD_PROD", "Mes"]`. -/
def parsedVentas (l : List VentaRow) : List VentaRow :=
  l.filter (fun r => r.fecha.isSome)

/-- Month bucket of a row (only meaningful on parsed rows):
`out["Mes"] = out["Fecha"].dt.to_period("M").dt.to_timestamp()`. -/
def mesR (r : VentaRow) : ℤ := (r.fecha.map Fecha.mes).getD 0

/-- One cell of the quantity pivot
(`ventas.pivot_table(index="COD_PROD", columns="Mes", values="Cantidad",
aggfunc="sum").fillna(0)`, with absent window months added as zero columns):
the summed quantity of product `p` in month `m`. -/
def cellQty (l : List VentaRow) (p : String) (m : ℤ) : ℚ :=
  (((parsedVentas l).filter (fun r => r.codProd = p ∧ mesR r = m)).map cantC).sum

/-- One cell of the revenue pivot (`values="Ingreso"`). -/
def cellIng (l : List VentaRow) (p : String) (m : ℤ) : ℚ :=
  (((parsedVentas l).filter (fun r => r.codProd = p ∧ mesR r = m)).map ingresoC).sum

/-- The trailing window `last12 = pd.date_range(end=ref, periods=12, freq="MS")`:
the 12 consecutive months ending at the anchor month `ref` inclusive. -/
def last12 (ref : ℤ) : List ℤ := (List.range 12).map (fun i => ref - 11 + i)

/-- Row sum of the windowed quantity matrix: `total_ventas_12m = ventas_last12.sum(axis=1)`. -/
def sum12 (l : List VentaRow) (ref : ℤ) (p : String) : ℚ :=
  ((last12 ref).map (cellQty l p)).sum

/-- Window mean `prom12 = ventas_last12.mean(axis=1)` (always 12 columns). -/
def prom12 (l : List VentaRow) (ref : ℤ) (p : String) : ℚ :=
  sum12 l ref p / 12

/-- Trailing revenue `ingresos_12m = ingresos_last12.sum(axis=1)`. -/
def ingresos12m (l : List VentaRow) (ref : ℤ) (p : String) : ℚ :=
  ((last12 ref).map (cellIng l p)).sum

/-- Products kept by the positivity filter
`productos_con_ventas = total_ventas_12m[total_ventas_12m > 0].index`,
in first-appearance order of the sales rows. -/
def productosConVentas (l : List VentaRow) (ref : ℤ) : List String :=
  (((parsedVentas l).map VentaRow.codProd).dedup).filter (fun p => 0 < sum12 l ref p)

/-- Engine parameters (`LEAD_TIME_DIAS`, `COBERTURA_MESES`, `VENTA_DIAS_SEMANA`). -/
structure Params where
  leadTime : ℚ
  cobertura : ℚ
  ventaDiasSemana : ℚ
  deriving DecidableEq, Repr

/-- The module defaults `DEFAULTS` of `analisis_core.py`. -/
def defaults : Params := { leadTime := 4, cobertura := 1, ventaDiasSemana := 6 }

/-- Minimum stock: `prom_diaria = prom12 / max(DIAS_VENTA_X_MES, 1)`;
`demanda_lt = prom_diaria * LEAD_TIME_DIAS`; `inv_min = demanda_lt.fillna(0)`. -/
def invMinQ (pars : Params) (l : List VentaRow) (ref : ℤ) (p : String) : ℚ :=
  (prom12 l ref p / (max (diasVentaXMes pars.ventaDiasSemana) 1 : ℤ)) * pars.leadTime

/-- Target stock: `inv_obj = inv_min + (prom12 * COBERTURA_MESES)` (and
`inv_max = inv_obj`). -/
def invObjQ (pars : Params) (l : List VentaRow) (ref : ℤ) (p : String) : ℚ :=
  invMinQ pars l ref p + prom12 l ref p * pars.cobertura

/-- One row of the final `resumen` table (the fields the claims are about). -/
structure Row where
  codProd : String
  descripcion : String
  saldoActual : ℚ
  invMin : ℚ
  invObj : ℚ
  estado : String
  cantAComprar : ℚ
  deriving DecidableEq, Repr

/-- Builds one output row for an inventory row of a product that passed the
sales filter.  `SALDO_ACTUAL` is the coerced balance;
`CANT_A_COMPRAR = (INV_OBJETIVO - SALDO_ACTUAL).clip(lower=0).round(2)`;
`ESTADO = np.where(SALDO_ACTUAL < INV_MIN, "FALTA INV.", "OK")`. -/
def mkRow (pars : Params) (l : List VentaRow) (ref : ℤ) (r : InvRow) : Row :=
  let saldo := r.saldo.getD 0
  let imin := invMinQ pars l ref r.codProd
  let iobj := invObjQ pars l ref r.codProd
  { codProd := r.codProd
    descripcion := r.descripcion
    saldoActual := saldo
    invMin := imin
    invObj := iobj
    estado := if saldo < imin then "FALTA INV." else "OK"
    cantAComprar := round2 (max (iobj - saldo) 0) }

/-- The rows of the analysis output of `analizar` (`analisis_core.py`):
`resumen = inv[inv['COD_PROD'].isin(productos_con_ventas)].merge(...)`.
All subsequent merges are inner joins on `COD_PROD` against series indexed
exactly by `productos_con_ventas`, so the output has one row per filtered
inventory row, in inventory order.  Membership in `productos_con_ventas` is
exactly `0 < sum12`. -/
def analisisRows (pars : Params) (l : List VentaRow) (inv : List InvRow) (ref : ℤ) : List Row :=
  (inv.filter (fun r => 0 < sum12 l ref r.codProd)).map (mkRow pars l ref)

/-! Concrete inputs used by witnesses and counterexamples. -/

/-- One sale of product `P`: 3 units at price 1 in the anchor month. -/
def exVentaP : List VentaRow := [⟨"P", "C", "S", some ⟨0, 5⟩, some 3, some 1⟩]

/-- Inventory holding product `P` with balance 0.286. -/
def exInv286 : List InvRow := [⟨"P", "d", some (143/500)⟩]

/-- Inventory holding product `P` with balance 0. -/
def exInv0 : List InvRow := [⟨"P", "d", some 0⟩]

/-- Inventory holding only product `Q`. -/
def exInvQ : List InvRow := [⟨"Q", "d", some 0⟩]

/-- The C5 scenario input: product `A`, 12 months of constant demand 30/month
(the 12 window months of anchor 0), price 1. -/
def exVentaA : List VentaRow :=
  [⟨"A", "C", "S", some ⟨-11, 1⟩, some 30, some 1⟩,
   ⟨"A", "C", "S", some ⟨-10, 1⟩, some 30, some 1⟩,
   ⟨"A", "C", "S", some ⟨-9, 1⟩, some 30, some 1⟩,
   ⟨"A", "C", "S", some ⟨-8, 1⟩, some 30, some 1⟩,
   ⟨"A", "C", "S", some ⟨-7, 1⟩, some 30, some 1⟩,
   ⟨"A", "C", "S", some ⟨-6, 1⟩, some 30, some 1⟩,
   ⟨"A", "C", "S", some ⟨-5, 1⟩, some 30, some 1⟩,
   ⟨"A", "C", "S", some ⟨-4, 1⟩, some 30, some 1⟩,
   ⟨"A", "C", "S", some ⟨-3, 1⟩, some 30, some 1⟩,
   ⟨"A", "C", "S", some ⟨-2, 1⟩, some 30, some 1⟩,
   ⟨"A", "C", "S", some ⟨-1, 1⟩, some 30, some 1⟩,
   ⟨"A", "C", "S", some ⟨0, 1⟩, some 30, some 1⟩]

/-- Inventory for the C5 scenario: product `A` with on-hand balance 0. -/
def exInvA : List InvRow := [⟨"A", "desc", some 0⟩]

/-! ABC classification (`clasificar_abc` in `analisis_core.py` lines 64-83,
`analisis_compras.py` lines 86-99, `clasificar_abc_clientes` in
`analisis_cliente.py` lines 26-53; all three bodies are identical up to
column names). -/

/-- One row of the `df_valor` input of `clasificar_abc`. -/
structure ValRow where
  cod : String
  valor : ℚ
  deriving DecidableEq, Repr

/-- One row of the `clasificar_abc` output. -/
structure AbcRow where
  cod : String
  valor : ℚ
  participacion : ℚ
  participacionAcum : ℚ
  abc : String
  deriving DecidableEq, Repr

/-- Label thresholds: `A` up to 0.80 cumulative share, `B` up to 0.95, else `C`. -/
def etiquetaABC (p : ℚ) : String :=
  if p ≤ 80/100 then "A" else if p ≤ 95/100 then "B" else "C"

/-- The descending sort `df_valor.sort_values("ValorConsumo", ascending=False)`.
pandas' default `kind="quicksort"` fixes no particular order among equal
values; the embedding realises one admissible descending arrangement with a
stable insertion sort (see the notes on claim C8). -/
def sortDesc (l : List ValRow) : List ValRow :=
  List.insertionSort (fun a b => b.valor ≤ a.valor) l

/-- Running cumulative share (`cumsum`) and labelling, walking the sorted rows. -/
def abcRows (acc : ℚ) : List (ValRow × ℚ) → List AbcRow
  | [] => []
  | (r, part) :: t =>
      ⟨r.cod, r.valor, part, acc + part, etiquetaABC (acc + part)⟩ :: abcRows (acc + part) t

/-- Modelled `clasificar_abc`: total, descending sort, shares
(`(ValorConsumo/total) if total > 0 else 0`), cumulative shares, labels. -/
def clasificar_abc (l : List ValRow) : List AbcRow :=
  abcRows 0 ((sortDesc l).map (fun r =>
    (r, if 0 < (l.map ValRow.valor).sum then r.valor / (l.map ValRow.valor).sum else 0)))

/-! The transactional sales normalizer `preparar_ventas_df`
(`analisis_core.py` lines 15-38; `preparar_ventas` in `analisis_compras.py`
lines 36-61 is the same computation after reading the CSV). -/

/-- One row of the aggregated normalizer output (one per `(COD_PROD, Mes)` key). -/
structure AggRow where
  codProd : String
  mes : ℤ
  cantidad : ℚ
  ingreso : ℚ
  deriving DecidableEq, Repr

/-- Group keys of `groupby(["COD_PROD", "Mes"])` over the date-parsed rows
(pandas drops `NaT` keys from the groupby). -/
def groupKeys (l : List VentaRow) : List (String × ℤ) :=
  ((parsedVentas l).map (fun r => (r.codProd, mesR r))).dedup

/-- Modelled `preparar_ventas_df` on a table that already has the required
columns: numeric coercion is implicit in `cantC`/`precioC`/`ingresoC`
(unparseable values become 0), dates that fail to parse become `NaT`; if every
date failed, raise `ValueError`; otherwise aggregate quantity and revenue per
`(COD_PROD, Mes)` by summation. -/
def preparar_ventas_df (l : List VentaRow) : Except String (List AggRow) :=
  if l.all (fun r => r.fecha.isNone) then
    Except.error "No se pudo interpretar Fecha en ventas."
  else
    Except.ok ((groupKeys l).map (fun k => ⟨k.1, k.2, cellQty l k.1 k.2, cellIng l k.1 k.2⟩))

/-- Explicit numeric coercion of one raw row: unparseable quantity/price
replaced by a parsed 0 (the date is untouched). -/
def coerceNums (r : VentaRow) : VentaRow :=
  { r with cantidad := some (cantC r), precio := some (precioC r) }

/-- A mixed table: one row with an unparseable date and unparseable quantity,
one fully parsed row. -/
def exVentaMix : List VentaRow :=
  [⟨"P", "C", "S", none, none, some 4⟩,
   ⟨"P", "C", "S", some ⟨0, 5⟩, some 3, some 2⟩]

/-! Customer analysis window (`analizar_clientes` in `analisis_cliente.py`,
lines 89-92): `ref = pd.Timestamp.today().to_period("M").to_timestamp()`;
`fecha_inicio = ref - pd.DateOffset(months=12)`;
`ventas_12m = ventas[ventas[fecha] >= fecha_inicio]`. -/

/-- The filter condition `Fecha >= fecha_inicio` where `fecha_inicio` is the
first day of the month 12 calendar months before the anchor month `ref`
(comparison of timestamps, i.e. lexicographic on (month, day); a `NaT` date
compares as `False` and the row is dropped). -/
def dateGeStart (ref : ℤ) (d : Fecha) : Bool :=
  decide (ref - 12 < d.mes) || (decide (d.mes = ref - 12) && decide (1 ≤ d.dia))

/-- `ventas_12m`: the rows the customer analysis aggregates. -/
def ventas12mCliente (l : List VentaRow) (ref : ℤ) : List VentaRow :=
  l.filter (fun r => match r.fecha with
    | none => false
    | some d => dateGeStart ref d)

/-- `VALOR_TOTAL_12M` of one customer: `ventas_12m.groupby(nom_cliente)` with
`{"Ingreso": "sum"}`. -/
def valorTotal12M (l : List VentaRow) (ref : ℤ) (c : String) : ℚ :=
  (((ventas12mCliente l ref).filter (fun r => r.nomCliente = c)).map ingresoC).sum

/-- `MESES_ACTIVOS` of one customer: `{"Mes": "nunique"}` over the same rows. -/
def mesesActivos (l : List VentaRow) (ref : ℤ) (c : String) : ℕ :=
  ((((ventas12mCliente l ref).filter (fun r => r.nomCliente = c)).map mesR).dedup).length

/-- Sales of customer `C`: one transaction on the first day of the month 12
months before the anchor (worth 2) and one 5 months after the anchor (worth 7).
Neither month lies in the trailing 12-month window of anchor 0. -/
def exVentaCli : List VentaRow :=
  [⟨"P", "C", "S", some ⟨-12, 1⟩, some 1, some 2⟩,
   ⟨"P", "C", "S", some ⟨5, 3⟩, some 1, some 7⟩]

/-! In-place mutation of caller-supplied tables (claim C10).
`analizar` and its helpers copy before transforming
(`out = df.copy()` at `analisis_core.py` line 25, `inv.rename(...).copy()` at
line 50), but the customer entry points write into the caller's DataFrame
BEFORE taking their copy:
`ventas_df[nom_cliente] = ventas_df[nom_cliente].apply(unidecode ...)`
(`analisis_cliente.py` line 79),
`ventas_df[cod_prod] = ...` / `ventas_df[des_proveedor] = ...` (lines 182-183),
and `productos_cliente["PROM_MENSUAL_CLIENTE"] = productos_cliente["CANTIDAD_12M"] / 12`
(line 288). -/

/-- Transliteration of `unidecode.unidecode` restricted to the Spanish accented
characters (other characters are returned unchanged; on these inputs unidecode
maps one character to one ASCII character). -/
def unidecodeChar (c : Char) : Char :=
  if c = 'á' then 'a' else if c = 'é' then 'e' else if c = 'í' then 'i'
  else if c = 'ó' then 'o' else if c = 'ú' then 'u' else if c = 'ñ' then 'n'
  else if c = 'ü' then 'u'
  else if c = 'Á' then 'A' else if c = 'É' then 'E' else if c = 'Í' then 'I'
  else if c = 'Ó' then 'O' else if c = 'Ú' then 'U' else if c = 'Ñ' then 'N'
  else if c = 'Ü' then 'U' else c

/-- Character-wise `unidecode.unidecode(str(x))` on a string cell. -/
def unidecodeStr (s : String) : String := ⟨s.data.map unidecodeChar⟩

/-- Mutation footprint of `analizar` on its caller's tables: none — both
helpers copy their input before transforming it. -/
def analizarVentasState (l : List VentaRow) (inv : List InvRow) :
    List VentaRow × List InvRow := (l, inv)

/-- State of the caller's sales table after `analizar_clientes` returns: the
customer-name column has been unidecoded in place (line 79 runs before the
`ventas_df.copy()` of line 82). -/
def analizarClientesVentasState (l : List VentaRow) : List VentaRow :=
  l.map (fun r => { r with nomCliente := unidecodeStr r.nomCliente })

/-- State of the caller's sales table after `analizar_productos_cliente`
returns: product-code and supplier columns unidecoded in place (lines 182-183). -/
def analizarProductosClienteVentasState (l : List VentaRow) : List VentaRow :=
  l.map (fun r => { r with codProd := unidecodeStr r.codProd,
                           desProveedor := unidecodeStr r.desProveedor })

/-- One row of the per-customer product table passed to
`identificar_alertas_cliente` (the columns line 288 needs are present). -/
structure ProdCliRow where
  codProd : String
  saldoActual : ℚ
  cantidad12 : ℚ
  mesesConCompra : ℕ
  estado : String
  promMensualCliente : Option ℚ
  deriving DecidableEq, Repr

/-- State of the caller's per-customer product table after
`identificar_alertas_cliente` returns: the derived column
`PROM_MENSUAL_CLIENTE = CANTIDAD_12M / 12` has been written into it. -/
def identificarAlertasState (t : List ProdCliRow) : List ProdCliRow :=
  t.map (fun r => { r with promMensualCliente := some (r.cantidad12 / 12) })

/-- A sales table whose customer name carries an accent. -/
def exJose : List VentaRow := [⟨"P", "José", "S", some ⟨0, 1⟩, some 1, some 1⟩]

/-! Coefficient of variation (claim C3).  The standard deviation is a real
square root, so this layer lives in `ℝ`; NaN/infinity propagation of
numpy/pandas division is modelled explicitly by `PVal`. -/

/-- A pandas float cell: finite value, signed infinity, or NaN. -/
inductive PVal where
  | fin (x : ℝ) : PVal
  | posInf : PVal
  | negInf : PVal
  | nan : PVal

/-- Float division as numpy performs it on series cells: `0/0 = NaN`,
`x/0 = ±inf` for `x ≠ 0`, anything involving NaN is NaN. -/
noncomputable def pdivP : PVal → PVal → PVal
  | .fin a, .fin b =>
      if b = 0 then (if a = 0 then .nan else if 0 < a then .posInf else .negInf)
      else .fin (a / b)
  | _, _ => .nan

/-- `.fillna(0)`: NaN becomes 0; finite and infinite values are untouched. -/
def fillna0 : PVal → PVal
  | .nan => .fin 0
  | v => v

/-- The cell holds an ordinary finite number (not NaN, not ±inf). -/
def PVal.finite : PVal → Prop
  | .fin _ => True
  | _ => False

/-- The numeric value of a finite cell (0 on the degenerate cases). -/
noncomputable def PVal.val : PVal → ℝ
  | .fin x => x
  | _ => 0

/-- Sample variance of the 12 window cells (`ddof=1`, so denominator 11). -/
def var12 (l : List VentaRow) (ref : ℤ) (p : String) : ℚ :=
  (((last12 ref).map (fun m => (cellQty l p m - prom12 l ref p)^2)).sum) / 11

/-- `desv = ventas_last12.std(axis=1, ddof=1).fillna(0)` (`analisis_core.py`
line 148): the window always has 12 columns, so the NaN case of `std` never
occurs and the standard deviation is the square root of `var12`. -/
noncomputable def desv12 (l : List VentaRow) (ref : ℤ) (p : String) : ℝ :=
  Real.sqrt (var12 l ref p)

/-- `cv = (desv / prom12).fillna(0)` (`analisis_core.py` line 151) in float
semantics. -/
noncomputable def cvCore (l : List VentaRow) (ref : ℤ) (p : String) : PVal :=
  fillna0 (pdivP (.fin (desv12 l ref p)) (.fin ((prom12 l ref p : ℝ))))

/-- Column set of the full-history pivot of `analisis_compras.py` after the
missing window months are appended as zero columns (lines 116-127): the
distinct observed sale months followed by the window months not already
present (column order is irrelevant to mean/std). -/
def mesesHist (l : List VentaRow) (ref : ℤ) : List ℤ :=
  ((parsedVentas l).map mesR).dedup ++
    ((last12 ref).filter (fun m => m ∉ ((parsedVentas l).map mesR).dedup))

/-- `pivot.mean(axis=1)` over the full-history columns. -/
def meanHist (l : List VentaRow) (ref : ℤ) (p : String) : ℚ :=
  (((mesesHist l ref).map (cellQty l p)).sum) / ((mesesHist l ref).length : ℚ)

/-- Sample variance over the full-history columns (`ddof=1`). -/
def varHist (l : List VentaRow) (ref : ℤ) (p : String) : ℚ :=
  (((mesesHist l ref).map (fun m => (cellQty l p m - meanHist l ref p)^2)).sum) /
    (((mesesHist l ref).length : ℚ) - 1)

/-- `desv = pivot.std(axis=1, ddof=1).fillna(0)` (`analisis_compras.py` line
134): with fewer than 2 columns `std` is NaN and the `fillna` turns it into 0
(unreachable here, since the 12 window columns are always appended first). -/
noncomputable def desvHist (l : List VentaRow) (ref : ℤ) (p : String) : ℝ :=
  if 2 ≤ (mesesHist l ref).length then Real.sqrt (varHist l ref p) else 0

/-- `cv = (desv / pivot.mean(axis=1).replace(0, np.nan)).fillna(0)`
(`analisis_compras.py` line 135): a mean of exactly 0 is replaced by NaN
before the division, and the resulting NaN is filled with 0. -/
noncomputable def cvCompras (l : List VentaRow) (ref : ℤ) (p : String) : PVal :=
  fillna0 (pdivP (.fin (desvHist l ref p))
    (if meanHist l ref p = 0 then .nan else .fin ((meanHist l ref p : ℝ))))

/-- Sales history of product `P` consisting only of returns: quantities -10
and -2 in two window months.  The full-history mean is -1 < 0. -/
def exNeg : List VentaRow :=
  [⟨"P", "C", "S", some ⟨-11, 1⟩, some (-10), some 1⟩,
   ⟨"P", "C", "S", some ⟨-10, 1⟩, some (-2), some 1⟩]

example : diasVentaXMes 6 = 25 := by norm_num [diasVentaXMes, intPy]

example : last12 0 = [-11, -10, -9, -8, -7, -6, -5, -4, -3, -2, -1, 0] := by decide

example : round2 (1/250) = 0 := by norm_num [round2, rhe, Int.floor_eq_iff]

example : round2 (174/5) = 174/5 := by norm_num [round2, rhe, Int.floor_eq_iff]

/-! Basic facts about the two-decimal rounding used by the engine. -/

theorem rhe_nonneg {x : ℚ} (h : 0 ≤ x) : 0 ≤ rhe x := by
  have hf : 0 ≤ ⌊x⌋ := Int.floor_nonneg.mpr h
  unfold rhe
  split_ifs <;> omega

theorem rhe_eq_zero_iff {x : ℚ} (h : 0 ≤ x) : rhe x = 0 ↔ x ≤ 1/2 := by
  have hf : 0 ≤ ⌊x⌋ := Int.floor_nonneg.mpr h
  have hfl : (⌊x⌋ : ℚ) ≤ x := Int.floor_le x
  constructor
  · intro h0
    unfold rhe at h0
    split_ifs at h0 with h1 h2 h3
    · have : (⌊x⌋ : ℚ) = 0 := by exact_mod_cast h0
      linarith
    · omega
    · have : (⌊x⌋ : ℚ) = 0 := by exact_mod_cast h0
      push_neg at h1 h2
      linarith [le_antisymm h2 h1]
    · omega
  · intro hx
    have h0 : ⌊x⌋ = 0 := Int.floor_eq_zero_iff.mpr ⟨h, by linarith⟩
    unfold rhe
    rw [h0]
    split_ifs with h1 h2 h3
    · rfl
    · push_cast at h2; linarith
    · rfl
    · omega

theorem round2_nonneg {x : ℚ} (h : 0 ≤ x) : 0 ≤ round2 x := by
  unfold round2
  have : (0:ℤ) ≤ rhe (100 * x) := rhe_nonneg (by positivity)
  positivity

theorem round2_eq_zero_iff {x : ℚ} (h : 0 ≤ x) : round2 x = 0 ↔ x ≤ 1/200 := by
  unfold round2
  rw [div_eq_zero_iff]
  have h100 : (0:ℚ) ≤ 100 * x := by positivity
  constructor
  · rintro (h0 | h0)
    · have : rhe (100 * x) = 0 := by exact_mod_cast h0
      have := (rhe_eq_zero_iff h100).mp this
      linarith
    · norm_num at h0
  · intro hx
    left
    have : rhe (100 * x) = 0 := (rhe_eq_zero_iff h100).mpr (by linarith)
    exact_mod_cast this

/-! Structural lemmas about `mkRow` and the output rows. -/

theorem mkRow_cant (pars : Params) (l : List VentaRow) (ref : ℤ) (ir : InvRow) :
    (mkRow pars l ref ir).cantAComprar =
      round2 (max 0 ((mkRow pars l ref ir).invObj - (mkRow pars l ref ir).saldoActual)) := by
  simp [mkRow, max_comm]

theorem mkRow_estado_iff (pars : Params) (l : List VentaRow) (ref : ℤ) (ir : InvRow) :
    (mkRow pars l ref ir).estado = "FALTA INV." ↔
      (mkRow pars l ref ir).saldoActual < (mkRow pars l ref ir).invMin := by
  simp only [mkRow]
  split_ifs with h <;> simp [h]

theorem mkRow_estado_ok (pars : Params) (l : List VentaRow) (ref : ℤ) (ir : InvRow)
    (h : ¬ (mkRow pars l ref ir).saldoActual < (mkRow pars l ref ir).invMin) :
    (mkRow pars l ref ir).estado = "OK" := by
  simp only [mkRow] at h ⊢
  rw [if_neg h]

theorem mem_analisisRows (pars : Params) (l : List VentaRow) (inv : List InvRow) (ref : ℤ)
    (r : Row) (hr : r ∈ analisisRows pars l inv ref) :
    ∃ ir, ir ∈ inv ∧ r = mkRow pars l ref ir := by
  obtain ⟨ir, hir, h⟩ := List.mem_map.mp hr
  exact ⟨ir, (List.mem_filter.mp hir).1, h.symm⟩

theorem analisisRows_exInv0 :
    analisisRows defaults exVentaP exInv0 0 =
      [⟨"P", "d", 0, 1/25, 29/100, "FALTA INV.", 29/100⟩] := by
  norm_num [analisisRows, mkRow, invMinQ, invObjQ, prom12, sum12, last12, cellQty,
    parsedVentas, mesR, cantC, exVentaP, exInv0, defaults, diasVentaXMes, intPy,
    round2, rhe, List.range_succ, List.filter, Int.floor_eq_iff]

theorem analisisRows_exInv286 :
    analisisRows defaults exVentaP exInv286 0 =
      [⟨"P", "d", 143/500, 1/25, 29/100, "OK", 0⟩] := by
  norm_num [analisisRows, mkRow, invMinQ, invObjQ, prom12, sum12, last12, cellQty,
    parsedVentas, mesR, cantC, exVentaP, exInv286, defaults, diasVentaXMes, intPy,
    round2, rhe, List.range_succ, List.filter, Int.floor_eq_iff]

/-- Claim C2 (confirmed): in every output row, `ESTADO` is `"FALTA INV."` if and
only if `SALDO_ACTUAL < INV_MIN` with strict inequality; when the balance is not
strictly below the minimum (in particular when it is exactly equal), the status
is `"OK"`.  Source: `analisis_core.py` line 202 / `analisis_compras.py` line 187. -/
theorem C2_estado_strict (pars : Params) (l : List VentaRow) (inv : List InvRow) (ref : ℤ)
    (r : Row) (hr : r ∈ analisisRows pars l inv ref) :
    (r.estado = "FALTA INV." ↔ r.saldoActual < r.invMin) ∧
    (¬ r.saldoActual < r.invMin → r.estado = "OK") := by
  obtain ⟨ir, -, rfl⟩ := mem_analisisRows pars l inv ref r hr
  exact ⟨mkRow_estado_iff pars l ref ir, mkRow_estado_ok pars l ref ir⟩

/-- Witness for `C2_estado_strict` at a concrete run: product `P` with balance 0
and minimum stock 1/25 is reported understocked. -/
theorem C2_estado_strict_witness :
    ((⟨"P", "d", 0, 1/25, 29/100, "FALTA INV.", 29/100⟩ : Row) ∈
        analisisRows defaults exVentaP exInv0 0) ∧
    (((⟨"P", "d", 0, 1/25, 29/100, "FALTA INV.", 29/100⟩ : Row).estado = "FALTA INV." ↔
        (⟨"P", "d", 0, 1/25, 29/100, "FALTA INV.", 29/100⟩ : Row).saldoActual <
          (⟨"P", "d", 0, 1/25, 29/100, "FALTA INV.", 29/100⟩ : Row).invMin) ∧
      (¬ (⟨"P", "d", 0, 1/25, 29/100, "FALTA INV.", 29/100⟩ : Row).saldoActual <
          (⟨"P", "d", 0, 1/25, 29/100, "FALTA INV.", 29/100⟩ : Row).invMin →
        (⟨"P", "d", 0, 1/25, 29/100, "FALTA INV.", 29/100⟩ : Row).estado = "OK")) :=
  ⟨by rw [analisisRows_exInv0]; exact List.mem_singleton.mpr rfl,
   C2_estado_strict defaults exVentaP exInv0 0 _
     (by rw [analisisRows_exInv0]; exact List.mem_singleton.mpr rfl)⟩

/-- Counterexample to claim C1 as stated: with one sale of 3 units of `P` in the
anchor month and balance 0.286, the output row has `INV_OBJETIVO = 0.29`,
`SALDO_ACTUAL = 0.286 < 0.29`, yet `CANT_A_COMPRAR = 0` because the deficit
0.004 rounds to 0 at two decimals — so `CANT_A_COMPRAR = 0` does NOT hold only
when `SALDO_ACTUAL ≥ INV_OBJETIVO`. -/
theorem C1_counterexample :
    analisisRows defaults exVentaP exInv286 0 =
      [⟨"P", "d", 143/500, 1/25, 29/100, "OK", 0⟩] ∧
    (143/500 : ℚ) < 29/100 := by
  exact ⟨analisisRows_exInv286, by norm_num⟩

/-- Claim C1 (amended): in every output row, `CANT_A_COMPRAR` equals
`max(0, INV_OBJETIVO - SALDO_ACTUAL)` rounded to 2 decimals and is never
negative; it is 0 exactly when `INV_OBJETIVO - SALDO_ACTUAL ≤ 0.005` (so it is 0
whenever `SALDO_ACTUAL ≥ INV_OBJETIVO`, but also when the deficit is positive
and at most half a cent, which rounds away).  Source: `analisis_core.py` line
201 / `analisis_compras.py` line 186. -/
theorem C1_cant_a_comprar_amended (pars : Params) (l : List VentaRow) (inv : List InvRow)
    (ref : ℤ) (r : Row) (hr : r ∈ analisisRows pars l inv ref) :
    r.cantAComprar = round2 (max 0 (r.invObj - r.saldoActual)) ∧
    0 ≤ r.cantAComprar ∧
    (r.cantAComprar = 0 ↔ r.invObj - r.saldoActual ≤ 1/200) := by
  obtain ⟨ir, -, rfl⟩ := mem_analisisRows pars l inv ref r hr
  refine ⟨mkRow_cant pars l ref ir, ?_, ?_⟩
  · rw [mkRow_cant pars l ref ir]
    exact round2_nonneg (le_max_left 0 _)
  · rw [mkRow_cant pars l ref ir, round2_eq_zero_iff (le_max_left 0 _)]
    constructor
    · intro h
      exact (max_le_iff.mp h).2
    · intro h
      exact max_le (by norm_num) h

/-- Witness for `C1_cant_a_comprar_amended` at a concrete run. -/
theorem C1_cant_a_comprar_amended_witness :
    ((⟨"P", "d", 0, 1/25, 29/100, "FALTA INV.", 29/100⟩ : Row) ∈
        analisisRows defaults exVentaP exInv0 0) ∧
    ((⟨"P", "d", 0, 1/25, 29/100, "FALTA INV.", 29/100⟩ : Row).cantAComprar =
        round2 (max 0 ((⟨"P", "d", 0, 1/25, 29/100, "FALTA INV.", 29/100⟩ : Row).invObj -
          (⟨"P", "d", 0, 1/25, 29/100, "FALTA INV.", 29/100⟩ : Row).saldoActual)) ∧
      0 ≤ (⟨"P", "d", 0, 1/25, 29/100, "FALTA INV.", 29/100⟩ : Row).cantAComprar ∧
      ((⟨"P", "d", 0, 1/25, 29/100, "FALTA INV.", 29/100⟩ : Row).cantAComprar = 0 ↔
        (⟨"P", "d", 0, 1/25, 29/100, "FALTA INV.", 29/100⟩ : Row).invObj -
          (⟨"P", "d", 0, 1/25, 29/100, "FALTA INV.", 29/100⟩ : Row).saldoActual ≤ 1/200)) :=
  ⟨by rw [analisisRows_exInv0]; exact List.mem_singleton.mpr rfl,
   C1_cant_a_comprar_amended defaults exVentaP exInv0 0 _
     (by rw [analisisRows_exInv0]; exact List.mem_singleton.mpr rfl)⟩

theorem analisisRows_exInvA :
    analisisRows defaults exVentaA exInvA 0 =
      [⟨"A", "desc", 0, 24/5, 174/5, "FALTA INV.", 174/5⟩] := by
  norm_num [analisisRows, mkRow, invMinQ, invObjQ, prom12, sum12, last12, cellQty,
    parsedVentas, mesR, cantC, exVentaA, exInvA, defaults, diasVentaXMes, intPy,
    round2, rhe, List.range_succ, List.filter, Int.floor_eq_iff]

/-- Counterexample to claim C5 as stated: in the scenario (balance 0, 12 months
of demand 30/month, lead time 4 days, 6 selling days/week) the code computes
`int(6 * 4.33) = 25` selling days per month, so the minimum stock is
`30 * (4/25) = 4.8`, which differs from the claimed `30 * (4/26) ≈ 4.6` by more
than 0.1 — the claimed values are not the computed ones. -/
theorem C5_counterexample :
    (analisisRows defaults exVentaA exInvA 0).map Row.invMin = [24/5] ∧
    (30 * (4/26) : ℚ) + 1/10 < 24/5 := by
  constructor
  · rw [analisisRows_exInvA]; rfl
  · norm_num

/-- Claim C5 (amended): with selling-days-per-month computed as
`int(days-per-week * 4.33)` (minimum 1), 6 selling days/week yields 25 (not 26),
so the scenario product (balance 0, 12 months of constant demand 30/month, lead
time 4 days) gets minimum stock `30 * (4/25) = 4.8`, target stock `34.8`,
suggested purchase `34.8`, and status understocked. -/
theorem C5_scenario_amended :
    diasVentaXMes defaults.ventaDiasSemana = 25 ∧
    analisisRows defaults exVentaA exInvA 0 =
      [⟨"A", "desc", 0, 24/5, 174/5, "FALTA INV.", 174/5⟩] := by
  constructor
  · norm_num [diasVentaXMes, intPy, defaults]
  · exact analisisRows_exInvA

/-- Counterexample to claim C6 as stated: product `P` has a sale of 3 units in
the window month 0, yet the analysis output has no row at all for it, because
`P` does not appear in the inventory table (the output joins against inventory). -/
theorem C6_counterexample :
    analisisRows defaults exVentaP exInvQ 0 = [] ∧
    cellQty exVentaP "P" 0 = 3 ∧ (0 : ℤ) ∈ last12 0 := by
  have h : ("P" : String) ≠ "Q" := by decide
  refine ⟨?_, ?_, by decide⟩
  · norm_num [analisisRows, sum12, last12, cellQty, parsedVentas, mesR, cantC,
      exVentaP, exInvQ, List.range_succ, List.filter_cons, List.filter_nil, h]
  · norm_num [cellQty, parsedVentas, mesR, cantC, exVentaP, List.filter_cons,
      List.filter_nil]

/-- Claim C6 (amended): the output has exactly one row per inventory row whose
product has strictly positive net quantity over the trailing 12-month window
(so, when inventory codes are distinct, exactly one row per such product); a
product appears in the output iff it is in the inventory table and its net
window quantity is positive — products with no (or non-positive net) window
sales, or absent from inventory, are excluded. -/
theorem C6_rows_amended (pars : Params) (l : List VentaRow) (inv : List InvRow) (ref : ℤ) :
    (analisisRows pars l inv ref).map Row.codProd =
      (inv.filter (fun ir => 0 < sum12 l ref ir.codProd)).map InvRow.codProd ∧
    ((inv.map InvRow.codProd).Nodup → ((analisisRows pars l inv ref).map Row.codProd).Nodup) ∧
    (∀ p, p ∈ (analisisRows pars l inv ref).map Row.codProd ↔
      p ∈ inv.map InvRow.codProd ∧ 0 < sum12 l ref p) := by
  have hmap : (analisisRows pars l inv ref).map Row.codProd =
      (inv.filter (fun ir => 0 < sum12 l ref ir.codProd)).map InvRow.codProd := by
    simp [analisisRows, List.map_map, Function.comp_def, mkRow]
  refine ⟨hmap, ?_, ?_⟩
  · intro hnd
    rw [hmap]
    exact hnd.sublist ((List.filter_sublist inv).map InvRow.codProd)
  · intro p
    rw [hmap]
    simp only [List.mem_map, List.mem_filter, decide_eq_true_eq]
    constructor
    · rintro ⟨ir, ⟨hmem, hpos⟩, rfl⟩
      exact ⟨⟨ir, hmem, rfl⟩, hpos⟩
    · rintro ⟨⟨ir, hmem, rfl⟩, hpos⟩
      exact ⟨ir, ⟨hmem, hpos⟩, rfl⟩

/-- Witness for `C6_rows_amended` at a concrete run with distinct inventory
codes. -/
theorem C6_rows_amended_witness :
    (exInv0.map InvRow.codProd).Nodup ∧
    ((analisisRows defaults exVentaP exInv0 0).map Row.codProd).Nodup :=
  ⟨by simp [exInv0], (C6_rows_amended defaults exVentaP exInv0 0).2.1 (by simp [exInv0])⟩

theorem abcRows_map_part (acc : ℚ) (lp : List (ValRow × ℚ)) :
    (abcRows acc lp).map AbcRow.participacion = lp.map (fun x => x.2) := by
  induction lp generalizing acc with
  | nil => rfl
  | cons h t ih => cases h; simp [abcRows, ih]

theorem abcRows_length (acc : ℚ) (lp : List (ValRow × ℚ)) :
    (abcRows acc lp).length = lp.length := by
  induction lp generalizing acc with
  | nil => rfl
  | cons h t ih => cases h; simp [abcRows, ih]

theorem abcRows_chain (acc : ℚ) (lp : List (ValRow × ℚ)) (h : ∀ x ∈ lp, 0 ≤ x.2) :
    List.Chain' (fun a b => a ≤ b) ((abcRows acc lp).map AbcRow.participacionAcum) := by
  induction lp generalizing acc with
  | nil => simp [abcRows]
  | cons hd t ih =>
    cases hd with
    | mk r part =>
      refine List.chain'_cons'.mpr ⟨?_, ih (acc + part) (fun x hx => h x (List.mem_cons_of_mem _ hx))⟩
      intro y hy
      cases t with
      | nil => simp [abcRows] at hy
      | cons hd2 t2 =>
        cases hd2 with
        | mk r2 part2 =>
          simp only [abcRows, List.map_cons, List.head?_cons, Option.mem_def,
            Option.some.injEq] at hy
          have h2 : 0 ≤ part2 := h (r2, part2) (by simp)
          simp only [← hy]
          linarith

theorem sum_map_div (l : List ℚ) (c : ℚ) : (l.map (fun x => x / c)).sum = l.sum / c := by
  induction l with
  | nil => simp
  | cons h t ih => simp [ih, add_div]

/-- Counterexample to claim C4 as stated: on the value table
`[("A", 10), ("B", -2)]` (total 8 > 0) the cumulative shares in descending
order are `[1.25, 1]`, which is strictly decreasing — with a negative value the
cumulative share is not monotone. -/
theorem C4_counterexample :
    (clasificar_abc [⟨"A", 10⟩, ⟨"B", -2⟩]).map AbcRow.participacionAcum = [5/4, 1] ∧
    ¬ ((5/4 : ℚ) ≤ 1) := by
  constructor
  · norm_num [clasificar_abc, sortDesc, abcRows, List.insertionSort, List.orderedInsert]
  · norm_num

/-- Claim C4 (amended): `clasificar_abc` never drops a row (the output length
always equals the input length); when the total value is positive the
individual shares sum exactly to 1; when the total is 0 every share is 0; and
the cumulative shares are monotonically non-decreasing in sort order provided
all values are non-negative (with a negative value they can decrease, see the
counterexample). -/
theorem C4_abc_amended (l : List ValRow) :
    (clasificar_abc l).length = l.length ∧
    ((∀ r ∈ l, 0 ≤ r.valor) →
      List.Chain' (fun a b => a ≤ b) ((clasificar_abc l).map AbcRow.participacionAcum)) ∧
    (0 < (l.map ValRow.valor).sum →
      ((clasificar_abc l).map AbcRow.participacion).sum = 1) ∧
    ((l.map ValRow.valor).sum = 0 → ∀ r ∈ clasificar_abc l, r.participacion = 0) := by
  have hperm : List.Perm (sortDesc l) l := List.perm_insertionSort _ l
  refine ⟨?_, ?_, ?_, ?_⟩
  · rw [clasificar_abc, abcRows_length, List.length_map, hperm.length_eq]
  · intro hnn
    refine abcRows_chain 0 _ ?_
    intro x hx
    obtain ⟨r, hr, rfl⟩ := List.mem_map.mp hx
    dsimp only
    split_ifs with ht
    · exact div_nonneg (hnn r (hperm.mem_iff.mp hr)) ht.le
    · exact le_refl 0
  · intro ht
    rw [clasificar_abc, abcRows_map_part, List.map_map]
    have : ((sortDesc l).map ((fun x => x.2) ∘ fun r =>
        (r, if 0 < (l.map ValRow.valor).sum then r.valor / (l.map ValRow.valor).sum else 0))) =
        (sortDesc l).map (fun r => r.valor / (l.map ValRow.valor).sum) := by
      refine List.map_congr_left ?_
      intro r _
      simp [ht]
    rw [this]
    have h2 : ((sortDesc l).map (fun r => r.valor / (l.map ValRow.valor).sum)).sum =
        ((sortDesc l).map ValRow.valor).sum / (l.map ValRow.valor).sum := by
      have := sum_map_div ((sortDesc l).map ValRow.valor) ((l.map ValRow.valor).sum)
      rw [List.map_map] at this
      exact this
    rw [h2, (hperm.map ValRow.valor).sum_eq]
    exact div_self (ne_of_gt ht)
  · intro ht r hr
    rw [clasificar_abc] at hr
    have := abcRows_map_part 0 ((sortDesc l).map (fun r =>
      (r, if 0 < (l.map ValRow.valor).sum then r.valor / (l.map ValRow.valor).sum else 0)))
    have hmem : r.participacion ∈ (abcRows 0 ((sortDesc l).map (fun r =>
        (r, if 0 < (l.map ValRow.valor).sum then r.valor / (l.map ValRow.valor).sum
          else 0)))).map AbcRow.participacion :=
      List.mem_map_of_mem AbcRow.participacion hr
    rw [this, List.map_map] at hmem
    obtain ⟨s, -, hs⟩ := List.mem_map.mp hmem
    rw [← hs]
    simp [ht, lt_irrefl]

/-- Witness for `C4_abc_amended`: all three conditional conclusions, each
discharged at a concrete table. -/
theorem C4_abc_amended_witness :
    ((∀ r ∈ [(⟨"A", 3⟩ : ValRow), ⟨"B", 1⟩], 0 ≤ r.valor) ∧
      List.Chain' (fun a b => a ≤ b)
        ((clasificar_abc [⟨"A", 3⟩, ⟨"B", 1⟩]).map AbcRow.participacionAcum)) ∧
    ((0 : ℚ) < (([(⟨"A", 3⟩ : ValRow), ⟨"B", 1⟩]).map ValRow.valor).sum ∧
      ((clasificar_abc [⟨"A", 3⟩, ⟨"B", 1⟩]).map AbcRow.participacion).sum = 1) ∧
    ((([(⟨"A", 0⟩ : ValRow)]).map ValRow.valor).sum = 0 ∧
      ∀ r ∈ clasificar_abc [⟨"A", 0⟩], r.participacion = 0) := by
  have h1 : ∀ r ∈ [(⟨"A", 3⟩ : ValRow), ⟨"B", 1⟩], 0 ≤ r.valor := by
    intro r hr
    fin_cases hr <;> norm_num
  exact ⟨⟨h1, (C4_abc_amended _).2.1 h1⟩,
    ⟨by norm_num, (C4_abc_amended _).2.2.1 (by norm_num)⟩,
    ⟨by norm_num, (C4_abc_amended _).2.2.2 (by norm_num)⟩⟩

theorem filter_map_coerce (p : VentaRow → Bool) (hp : ∀ r, p (coerceNums r) = p r)
    (X : List VentaRow) : (X.map coerceNums).filter p = (X.filter p).map coerceNums := by
  induction X with
  | nil => rfl
  | cons h t ih =>
    simp only [List.map_cons, List.filter_cons, hp]
    split_ifs <;> simp [ih]

theorem parsedVentas_coerceNums (l : List VentaRow) :
    parsedVentas (l.map coerceNums) = (parsedVentas l).map coerceNums :=
  filter_map_coerce (fun r => r.fecha.isSome) (fun _ => rfl) l

theorem cellQty_coerceNums (l : List VentaRow) (p : String) (m : ℤ) :
    cellQty (l.map coerceNums) p m = cellQty l p m := by
  unfold cellQty
  rw [parsedVentas_coerceNums,
    filter_map_coerce (fun r => decide (r.codProd = p ∧ mesR r = m)) (fun _ => rfl),
    List.map_map]
  rfl

theorem cellIng_coerceNums (l : List VentaRow) (p : String) (m : ℤ) :
    cellIng (l.map coerceNums) p m = cellIng l p m := by
  unfold cellIng
  rw [parsedVentas_coerceNums,
    filter_map_coerce (fun r => decide (r.codProd = p ∧ mesR r = m)) (fun _ => rfl),
    List.map_map]
  rfl

theorem groupKeys_coerceNums (l : List VentaRow) :
    groupKeys (l.map coerceNums) = groupKeys l := by
  unfold groupKeys
  rw [parsedVentas_coerceNums, List.map_map]
  rfl

theorem parsedVentas_idem (l : List VentaRow) :
    parsedVentas (parsedVentas l) = parsedVentas l := by
  simp [parsedVentas, List.filter_filter]

theorem cellQty_parsed (l : List VentaRow) (p : String) (m : ℤ) :
    cellQty (parsedVentas l) p m = cellQty l p m := by
  unfold cellQty
  rw [parsedVentas_idem]

theorem cellIng_parsed (l : List VentaRow) (p : String) (m : ℤ) :
    cellIng (parsedVentas l) p m = cellIng l p m := by
  unfold cellIng
  rw [parsedVentas_idem]

theorem groupKeys_parsed (l : List VentaRow) :
    groupKeys (parsedVentas l) = groupKeys l := by
  unfold groupKeys
  rw [parsedVentas_idem]

/-- Claim C7 (confirmed): given a sales table with the required columns, the
normalizer fails if and only if every row's date fails to parse; replacing
every unparseable quantity/price by an explicit 0 changes nothing (the row
proceeds, coerced to 0); and when at least one date parses, dropping the rows
whose date failed to parse changes nothing either — an unparseable date
invalidates its row without aborting the run. -/
theorem C7_normalizer_failure (l : List VentaRow) :
    ((preparar_ventas_df l).isOk = false ↔ ∀ r ∈ l, r.fecha = none) ∧
    preparar_ventas_df (l.map coerceNums) = preparar_ventas_df l ∧
    ((∃ r ∈ l, r.fecha ≠ none) → preparar_ventas_df (parsedVentas l) = preparar_ventas_df l) := by
  refine ⟨?_, ?_, ?_⟩
  · unfold preparar_ventas_df
    split_ifs with h
    · simpa [Except.isOk, Except.toBool, Option.isNone_iff_eq_none,
        List.all_eq_true] using h
    · constructor
      · intro hfalse
        simp [Except.isOk, Except.toBool] at hfalse
      · intro hall
        refine absurd (List.all_eq_true.mpr (fun r hr => ?_)) h
        simp [Option.isNone_iff_eq_none, hall r hr]
  · unfold preparar_ventas_df
    have hall : (l.map coerceNums).all (fun r => r.fecha.isNone) =
        l.all (fun r => r.fecha.isNone) := by
      induction l with
      | nil => rfl
      | cons h t ih => simp [coerceNums] at ih ⊢; rw [ih]
    rw [hall]
    split_ifs
    · rfl
    · rw [groupKeys_coerceNums]
      congr 1
      refine List.map_congr_left ?_
      intro k _
      rw [cellQty_coerceNums, cellIng_coerceNums]
  · intro hex
    unfold preparar_ventas_df
    have hsome : ∃ r ∈ l, r.fecha.isSome := by
      obtain ⟨r, hr, hne⟩ := hex
      exact ⟨r, hr, Option.isSome_iff_ne_none.mpr hne⟩
    have h1 : l.all (fun r => r.fecha.isNone) = false := by
      obtain ⟨r, hr, hs⟩ := hsome
      simp only [List.all_eq_false]
      exact ⟨r, hr, by simp [Option.isNone_iff_eq_none, Option.isSome_iff_ne_none.mp hs]⟩
    have h2 : (parsedVentas l).all (fun r => r.fecha.isNone) = false := by
      obtain ⟨r, hr, hs⟩ := hsome
      simp only [List.all_eq_false]
      refine ⟨r, ?_, by simp [Option.isNone_iff_eq_none, Option.isSome_iff_ne_none.mp hs]⟩
      simp [parsedVentas, List.mem_filter, hr, hs]
    rw [h1, h2]
    simp only [Bool.false_eq_true, if_false]
    rw [groupKeys_parsed]
    congr 1
    refine List.map_congr_left ?_
    intro k _
    rw [cellQty_parsed, cellIng_parsed]

/-- Witness for `C7_normalizer_failure`: the mixed table has a parseable date,
so the run does not fail and dropping the invalid row changes nothing. -/
theorem C7_normalizer_failure_witness :
    (∃ r ∈ exVentaMix, r.fecha ≠ none) ∧
    preparar_ventas_df (parsedVentas exVentaMix) = preparar_ventas_df exVentaMix :=
  ⟨⟨⟨"P", "C", "S", some ⟨0, 5⟩, some 3, some 2⟩, by simp [exVentaMix], by simp⟩,
   (C7_normalizer_failure exVentaMix).2.2
     ⟨⟨"P", "C", "S", some ⟨0, 5⟩, some 3, some 2⟩, by simp [exVentaMix], by simp⟩⟩

/-- Claim C9 (code bug exhibit): the customer filter keeps every transaction
dated on or after the first day of the month 12 months before the anchor —
a span of 13 calendar months with no upper bound — although the code comment
and the spec say the aggregation covers the trailing 12 months.  With anchor 0,
customer `C`'s 12-month revenue is 2 + 7 = 9 and the active-month count is 2,
even though NONE of `C`'s transactions falls in the window months -11..0. -/
theorem C9_window_exhibit :
    valorTotal12M exVentaCli 0 "C" = 9 ∧
    mesesActivos exVentaCli 0 "C" = 2 ∧
    ((-12 : ℤ) ∉ last12 0) ∧ ((5 : ℤ) ∉ last12 0) := by
  refine ⟨?_, ?_, by decide, by decide⟩
  · norm_num [valorTotal12M, ventas12mCliente, dateGeStart, exVentaCli, ingresoC,
      cantC, precioC, List.filter_cons, List.filter_nil]
  · norm_num [mesesActivos, ventas12mCliente, dateGeStart, exVentaCli, mesR,
      List.filter_cons, List.filter_nil, List.dedup]

theorem list_map_eq_self {α : Type} (f : α → α) (l : List α) :
    l.map f = l ↔ ∀ x ∈ l, f x = x := by
  induction l with
  | nil => simp
  | cons h t ih => simp [ih]

theorem upd_nomCliente_eq (r : VentaRow) :
    ({ r with nomCliente := unidecodeStr r.nomCliente } = r) ↔
      unidecodeStr r.nomCliente = r.nomCliente := by
  cases r
  simp [VentaRow.mk.injEq]

theorem upd_codProv_eq (r : VentaRow) :
    ({ r with codProd := unidecodeStr r.codProd,
              desProveedor := unidecodeStr r.desProveedor } = r) ↔
      (unidecodeStr r.codProd = r.codProd ∧ unidecodeStr r.desProveedor = r.desProveedor) := by
  cases r
  simp [VentaRow.mk.injEq]

theorem upd_prom_eq (r : ProdCliRow) :
    ({ r with promMensualCliente := some (r.cantidad12 / 12) } = r) ↔
      r.promMensualCliente = some (r.cantidad12 / 12) := by
  cases r
  simp [ProdCliRow.mk.injEq, eq_comm]

/-- Counterexample to claim C10 as stated: `analizar_clientes` mutates its
caller's sales table — after the call the name `"José"` has become `"Jose"`,
so the table is not unchanged. -/
theorem C10_counterexample :
    analizarClientesVentasState exJose ≠ exJose ∧
    (analizarClientesVentasState exJose).map VentaRow.nomCliente = ["Jose"] := by
  have heval : (analizarClientesVentasState exJose).map VentaRow.nomCliente = ["Jose"] := by
    simp [analizarClientesVentasState, exJose, unidecodeStr, unidecodeChar]
  refine ⟨?_, heval⟩
  intro h
  have h2 := congrArg (List.map VentaRow.nomCliente) h
  rw [heval] at h2
  simp [exJose] at h2

/-- Claim C10 (amended): the product analysis `analizar` leaves its
caller-supplied tables unchanged (its helpers copy first), but the customer
entry points do mutate them in place: `analizar_clientes` unidecodifies the
customer-name column (unchanged iff every name is already a `unidecode` fixed
point), `analizar_productos_cliente` unidecodifies the product-code and
supplier columns, and `identificar_alertas_cliente` writes the derived column
`PROM_MENSUAL_CLIENTE = CANTIDAD_12M / 12` into the passed table (unchanged iff
that column was already present with exactly those values). -/
theorem C10_mutation_amended (l : List VentaRow) (inv : List InvRow) (t : List ProdCliRow) :
    analizarVentasState l inv = (l, inv) ∧
    (analizarClientesVentasState l = l ↔ ∀ r ∈ l, unidecodeStr r.nomCliente = r.nomCliente) ∧
    (analizarProductosClienteVentasState l = l ↔
      ∀ r ∈ l, unidecodeStr r.codProd = r.codProd ∧
        unidecodeStr r.desProveedor = r.desProveedor) ∧
    (identificarAlertasState t = t ↔
      ∀ r ∈ t, r.promMensualCliente = some (r.cantidad12 / 12)) := by
  refine ⟨rfl, ?_, ?_, ?_⟩
  · rw [analizarClientesVentasState, list_map_eq_self]
    exact forall₂_congr (fun r _ => upd_nomCliente_eq r)
  · rw [analizarProductosClienteVentasState, list_map_eq_self]
    exact forall₂_congr (fun r _ => upd_codProv_eq r)
  · rw [identificarAlertasState, list_map_eq_self]
    exact forall₂_congr (fun r _ => upd_prom_eq r)

theorem pdivP_fin_fin (a b : ℝ) (hb : b ≠ 0) :
    pdivP (.fin a) (.fin b) = .fin (a / b) := by
  simp [pdivP, hb]

theorem fillna0_fin (x : ℝ) : fillna0 (.fin x) = .fin x := rfl

theorem desvHist_nonneg (l : List VentaRow) (ref : ℤ) (p : String) :
    0 ≤ desvHist l ref p := by
  unfold desvHist
  split_ifs
  · exact Real.sqrt_nonneg _
  · exact le_refl 0

theorem mesesHist_exNeg :
    mesesHist exNeg 0 = [-11, -10, -9, -8, -7, -6, -5, -4, -3, -2, -1, 0] := by
  decide

theorem meanHist_exNeg : meanHist exNeg 0 "P" = -1 := by
  rw [meanHist, mesesHist_exNeg]
  norm_num [cellQty, parsedVentas, mesR, cantC, exNeg, List.filter_cons, List.filter_nil]

theorem varHist_exNeg : varHist exNeg 0 "P" = 92/11 := by
  rw [varHist, mesesHist_exNeg, meanHist_exNeg]
  norm_num [cellQty, parsedVentas, mesR, cantC, exNeg, List.filter_cons, List.filter_nil]

/-- Counterexample to claim C3 as stated: on a sales table whose only
quantities are the returns -10 and -2, the CV the `analisis_compras` variant
computes for product `P` is `-sqrt(92/11) < 0` — the coefficient of variation
is NOT always non-negative. -/
theorem C3_counterexample :
    cvCompras exNeg 0 "P" = PVal.fin (-Real.sqrt (92/11)) ∧
    (-Real.sqrt (92/11) : ℝ) < 0 := by
  constructor
  · have hdes : desvHist exNeg 0 "P" = Real.sqrt (92/11) := by
      rw [desvHist, if_pos (by rw [mesesHist_exNeg]; norm_num), varHist_exNeg]
      norm_num
    rw [cvCompras, meanHist_exNeg, if_neg (by norm_num), hdes,
      pdivP_fin_fin _ _ (by norm_num), fillna0_fin]
    congr 1
    rw [show ((-1 : ℚ) : ℝ) = -1 from by norm_num, div_neg, div_one]
  · simp only [neg_lt, neg_zero]
    exact Real.sqrt_pos.mpr (by norm_num)

/-- Claim C3 (amended): for every sales table the engine's CV values are
always finite — never NaN, never ±infinity, no division by zero — and are 0
whenever the relevant mean is 0.  In the core analyzer (`analisis_core.py`),
whose entities all have positive window means, the CV is moreover always
non-negative; in the `analisis_compras` variant the CV is non-negative
whenever the full-history mean is non-negative (with a negative mean it can be
negative, see the counterexample). -/
theorem C3_cv_amended (l : List VentaRow) (ref : ℤ) :
    (∀ p ∈ productosConVentas l ref,
      (cvCore l ref p).finite ∧ 0 ≤ (cvCore l ref p).val) ∧
    (∀ p : String,
      (cvCompras l ref p).finite ∧
      (0 ≤ meanHist l ref p → 0 ≤ (cvCompras l ref p).val) ∧
      (meanHist l ref p = 0 → (cvCompras l ref p).val = 0)) := by
  constructor
  · intro p hp
    have hpos : 0 < sum12 l ref p := by
      have h := (List.mem_filter.mp hp).2
      simpa using h
    have hprom : 0 < prom12 l ref p := by
      rw [prom12]
      positivity
    have hne : ((prom12 l ref p : ℚ) : ℝ) ≠ 0 :=
      ne_of_gt (by exact_mod_cast hprom)
    rw [cvCore, pdivP_fin_fin _ _ hne, fillna0_fin]
    refine ⟨trivial, ?_⟩
    show 0 ≤ desv12 l ref p / ((prom12 l ref p : ℚ) : ℝ)
    exact div_nonneg (Real.sqrt_nonneg _) (le_of_lt (by exact_mod_cast hprom))
  · intro p
    by_cases hm : meanHist l ref p = 0
    · have hvalue : cvCompras l ref p = .fin 0 := by
        rw [cvCompras, if_pos hm]
        rfl
      rw [hvalue]
      exact ⟨trivial, fun _ => le_refl 0, fun _ => rfl⟩
    · have hne : ((meanHist l ref p : ℚ) : ℝ) ≠ 0 := by
        exact_mod_cast hm
      rw [cvCompras, if_neg hm, pdivP_fin_fin _ _ hne, fillna0_fin]
      refine ⟨trivial, ?_, fun h0 => absurd h0 hm⟩
      intro hge
      have hgt : 0 < meanHist l ref p := lt_of_le_of_ne hge (Ne.symm hm)
      show 0 ≤ desvHist l ref p / ((meanHist l ref p : ℚ) : ℝ)
      exact div_nonneg (desvHist_nonneg l ref p) (le_of_lt (by exact_mod_cast hgt))

/-- Witness for `C3_cv_amended` at a concrete run: product `P` with one sale
of 3 units in the window. -/
theorem C3_cv_amended_witness :
    ("P" ∈ productosConVentas exVentaP 0) ∧
    ((cvCore exVentaP 0 "P").finite ∧ 0 ≤ (cvCore exVentaP 0 "P").val) ∧
    ((cvCompras exVentaP 0 "P").finite ∧
      (0 ≤ meanHist exVentaP 0 "P" → 0 ≤ (cvCompras exVentaP 0 "P").val) ∧
      (meanHist exVentaP 0 "P" = 0 → (cvCompras exVentaP 0 "P").val = 0)) := by
  have hmem : "P" ∈ productosConVentas exVentaP 0 := by
    rw [productosConVentas, List.mem_filter]
    constructor
    · rw [List.mem_dedup]
      simp [parsedVentas, exVentaP]
    · norm_num [sum12, cellQty, last12, parsedVentas, mesR, cantC, exVentaP,
        List.range_succ, List.filter_cons, List.filter_nil]
  exact ⟨hmem, (C3_cv_amended exVentaP 0).1 "P" hmem, (C3_cv_amended exVentaP 0).2 "P"⟩
